import Mathlib

/-!
Shallow embedding of the OTP subsystem of the Manara backend
(`authentication/utils/otp.py`, `authentication/serializers.py`,
`authentication/views.py`).

Conventions:
* Time is a `Nat` counting seconds; `timezone.now()` becomes an explicit
  `now` parameter threaded through each operation.
* The database table of `OTPCode` rows is a `List OTPCode`; Django queryset
  operations (`filter(...).update(...)`, `objects.create`, `filter(...).first()`,
  `save`, `delete`) become explicit list transformations, in the order the
  Python executes them.
* The Django cache (`django.core.cache.cache`) is a list of keyed entries
  with absolute expiry times; `cache.get` consults `now`.
* Randomness (`OTPManager.generate_otp`) and external delivery outcomes
  (Twilio SMS, `send_mail`) are modelled as explicit inputs.
-/

namespace Manara

/-- A row of the `OTPCode` table (`authentication/models.py`):
`user` foreign key (modelled as a `Nat` id), 6-char `code`, `is_used`
flag defaulting to false, `created_at`, and `expires_at`. -/
structure OTPCode where
  user : Nat
  code : String
  is_used : Bool
  created_at : Nat
  expires_at : Nat
deriving Repr, DecidableEq

/-- The "live" predicate used by the querysets in `create_otp` and
`verify_otp`: `is_used=False AND expires_at > now`. -/
def OTPCode.live (o : OTPCode) (now : Nat) : Bool :=
  !o.is_used && decide (now < o.expires_at)

/-- The queryset condition of `verify_otp`:
`filter(user=user, code=code, is_used=False, expires_at__gt=now)`. -/
def OTPCode.matches (o : OTPCode) (u : Nat) (c : String) (now : Nat) : Bool :=
  o.user == u && o.code == c && !o.is_used && decide (now < o.expires_at)

/-- Step 1 of `OTPManager.create_otp`:
`OTPCode.objects.filter(user=user, is_used=False, expires_at__gt=now)
   .update(expires_at=now)` —
every live row of the user gets its `expires_at` collapsed to `now`;
all other rows are untouched. -/
def invalidate_live (s : List OTPCode) (u : Nat) (now : Nat) : List OTPCode :=
  s.map fun o => if o.user == u && o.live now then { o with expires_at := now } else o

/-- Validity window of a fresh code: `timedelta(minutes=10)` in seconds. -/
def otpValiditySeconds : Nat := 600

/-- The row built by `OTPCode.objects.create(user=user, code=otp_code,
expires_at=now+10min)` (with `is_used` defaulting to false and
`created_at=auto_now_add`). -/
def newOtp (u : Nat) (c : String) (now : Nat) : OTPCode :=
  { user := u, code := c, is_used := false, created_at := now,
    expires_at := now + otpValiditySeconds }

/-- `OTPManager.create_otp(user)`: invalidate the live codes of the user, persist
one fresh code valid for 10 minutes, then call `send_otp`. On delivery
failure the just-created row is deleted (`otp.delete()`) and `None` is
returned; on success the new row is returned. `c` is the string produced by
`generate_otp()` and `deliverOk` the boolean returned by `send_otp`, both
modelled as inputs. Returns (result, updated table). -/
def create_otp (s : List OTPCode) (u : Nat) (c : String) (now : Nat)
    (deliverOk : Bool) : Option OTPCode × List OTPCode :=
  let s1 := invalidate_live s u now
  let otp := newOtp u c now
  let s2 := s1 ++ [otp]
  if deliverOk then (some otp, s2) else (none, s1)

/-- `OTPManager.verify_otp(user, code)`: take the first row matching
`user, code, is_used=False, expires_at__gt=now`; if none, return failure with
the table unchanged; otherwise set `is_used=True` on that row (`otp.save()`)
and return success. Returns (result, updated table). -/
def verify_otp : List OTPCode → Nat → String → Nat → Bool × List OTPCode
  | [], _, _, _ => (false, [])
  | o :: rest, u, c, now =>
    if o.matches u c now then
      (true, { o with is_used := true } :: rest)
    else
      let r := verify_otp rest u c now
      (r.1, o :: r.2)

/-- What `OTPManager.send_otp` attempted and returned. -/
structure DeliveryTrace where
  attemptedSms : Bool
  attemptedEmail : Bool
  ok : Bool
deriving Repr, DecidableEq

/-- `OTPManager.send_otp(user, otp_code)`: construct the Twilio client
(`clientOk`; built from static settings, it fails only on misconfiguration,
in which case the outer handler returns failure without attempting either
channel), attempt the SMS to the phone of the user (`smsOk` is whether
`client.messages.create` succeeds); on an SMS exception, if `user.email` is
truthy send the email fallback (`emailOk` is whether `send_mail` succeeds —
a `send_mail` exception reaches the outer handler, which returns failure);
if the email is absent, raise, caught by the outer handler as failure.
`email = none` models a falsy `user.email`. -/
def send_otp (clientOk smsOk : Bool) (email : Option String) (emailOk : Bool) :
    DeliveryTrace :=
  if clientOk then
    if smsOk then ⟨true, false, true⟩
    else
      match email with
      | some _ => ⟨true, true, emailOk⟩
      | none => ⟨true, false, false⟩
  else ⟨false, false, false⟩

/-- `code` validation shared by `VerifyOTPSerializer`: `CharField` of
`min_length=6, max_length=6` plus `validate_code` requiring all digits. -/
def isSixDigitCode (c : String) : Bool :=
  decide (c.length = 6) && c.data.all Char.isDigit

/-- `RequestOTPSerializer.validate`: `email` and `phone_number` are both
optional and the only check is that not both are absent. Returns whether the
input validates. -/
def RequestOTPSerializer_valid (email phoneNumber : Option String) : Bool :=
  email.isSome || phoneNumber.isSome

/-- `VerifyOTPSerializer`: `email` is a required field, `code` must be six
digits, and no `phone_number` field is declared — a submitted `phone_number`
is dropped by the serializer and plays no part in validation. -/
def VerifyOTPSerializer_valid (email : Option String)
    (_phoneNumber : Option String) (code : String) : Bool :=
  email.isSome && isSixDigitCode code

/-- The input shape asserted by the spec for Verify OTP, written from the
words of the spec (`{email or phone_number, code}` with a 6-digit code), for
comparison with `VerifyOTPSerializer_valid`. -/
def specVerifyShape (email phoneNumber : Option String) (code : String) : Bool :=
  (email.isSome || phoneNumber.isSome) && isSixDigitCode code

/-- The identifier-presence rule asserted by the spec for Request OTP,
written from the words of the spec (exactly one of email and phone present), for
comparison with `RequestOTPSerializer_valid`. -/
def specExactlyOneIdentifier (email phoneNumber : Option String) : Bool :=
  email.isSome ^^ phoneNumber.isSome

/-- Keys of the Django cache used by the OTP views: the f-strings
`otp_request_{identifier}` and `otp_attempts_{identifier}` (the two prefixes
never collide, so the keyspace is this sum type). -/
inductive CacheKey where
  | otpRequest (identifier : String)
  | otpAttempts (identifier : String)
deriving Repr, DecidableEq

/-- One cache entry: key, stored value (`True` of the cooldown marker is
stored as `1`), absolute expiry instant. -/
structure CacheEntry where
  key : CacheKey
  value : Nat
  expires_at : Nat
deriving Repr, DecidableEq

/-- The shared ephemeral cache. -/
abbrev Cache := List CacheEntry

/-- `cache.get(key)`: the stored value if an unexpired entry exists,
otherwise `none`. -/
def cacheGet (c : Cache) (k : CacheKey) (now : Nat) : Option Nat :=
  (c.find? fun e => e.key == k && decide (now < e.expires_at)).map (·.value)

/-- `cache.set(key, value, ttl)`: replaces any entry under the key with one
expiring `ttl` seconds from now. -/
def cacheSet (c : Cache) (k : CacheKey) (v : Nat) (ttl : Nat) (now : Nat) :
    Cache :=
  ⟨k, v, now + ttl⟩ :: c.filter fun e => e.key != k

/-- `cache.delete(key)`. -/
def cacheDelete (c : Cache) (k : CacheKey) : Cache :=
  c.filter fun e => e.key != k

/-- A row of the `User` table, with the fields the OTP flow reads.
`email`/`phone` are `none` when falsy. -/
structure MUser where
  id : Nat
  email : Option String
  phone : Option String
  is_verified : Bool
deriving Repr, DecidableEq

/-- The state the OTP views read and write: the `User` and `OTPCode` tables
and the shared cache. -/
structure SysState where
  users : List MUser
  otps : List OTPCode
  cache : Cache
deriving Repr, DecidableEq

/-- Outcome of an OTP view, abstracting the HTTP response:
DRF validation failure (400), 429 with its optional `wait_time` hint,
404, 500, the 400 of the verify view carrying `attempts_left`, and 200. -/
inductive OtpResponse where
  | validationFailure
  | rateLimited (waitHint : Option String)
  | notFound
  | serverFailure
  | badCode (attemptsLeft : Nat)
  | ok
deriving Repr, DecidableEq

/-- `identifier = str(email or phone_number)`: the first truthy of the two
(`"None"` if both absent, unreachable after validation). -/
def identifierOf (email phoneNumber : Option String) : String :=
  match email with
  | some e => e
  | none =>
    match phoneNumber with
    | some p => p
    | none => "None"

/-- `User.objects.filter(email=email).first()` /
`...filter(phone_number=phone_number).first()` as composed in both views:
lookup by email when given, else by phone, else none. -/
def lookupUser (users : List MUser) (email phoneNumber : Option String) :
    Option MUser :=
  match email with
  | some e => users.find? fun u => u.email == some e
  | none =>
    match phoneNumber with
    | some p => users.find? fun u => u.phone == some p
    | none => none

/-- Cooldown TTL used by `RequestOTPView` (`cache.set(cache_key, True, 60)`). -/
def cooldownSeconds : Nat := 60

/-- `RequestOTPView.post`: validate, reject with 429 and a "60 seconds" hint
when the `otp_request_{identifier}` cooldown entry is live, 404 when no user
matches, call `create_otp` (500 on failure, with no cooldown written), and on
success write the 60-second cooldown entry and respond 200. `code` and
`deliverOk` are the generated code and delivery outcome fed to `create_otp`. -/
def RequestOTPView_post (st : SysState) (email phoneNumber : Option String)
    (code : String) (deliverOk : Bool) (now : Nat) : OtpResponse × SysState :=
  if !RequestOTPSerializer_valid email phoneNumber then
    (.validationFailure, st)
  else
    let identifier := identifierOf email phoneNumber
    let ck := CacheKey.otpRequest identifier
    if (cacheGet st.cache ck now).isSome then
      (.rateLimited (some "60 seconds"), st)
    else
      match lookupUser st.users email phoneNumber with
      | none => (.notFound, st)
      | some u =>
        let r := create_otp st.otps u.id code now deliverOk
        match r.1 with
        | none => (.serverFailure, { st with otps := r.2 })
        | some _ =>
          (.ok, { st with otps := r.2,
                          cache := cacheSet st.cache ck 1 cooldownSeconds now })

/-- Attempt cap of `VerifyOTPView` (`max_attempts = 3`). -/
def maxAttempts : Nat := 3

/-- Attempt-counter TTL (`cache.set(attempt_key, attempts + 1, 300)`). -/
def attemptTtlSeconds : Nat := 300

/-- `VerifyOTPView.post`: validate (email required, six-digit code; a
submitted `phone_number` is dropped), read `otp_attempts_{identifier}`
(default 0) and reject with a bare 429 when it has reached `max_attempts`,
404 when no user matches, then `verify_otp`: on success mark the user
verified, delete the attempt counter and respond 200; on failure bump the
counter with a 5-minute TTL and respond 400 with `attempts_left`. -/
def VerifyOTPView_post (st : SysState) (email phoneNumber : Option String)
    (code : String) (now : Nat) : OtpResponse × SysState :=
  if !VerifyOTPSerializer_valid email phoneNumber code then
    (.validationFailure, st)
  else
    let identifier := identifierOf email none
    let ak := CacheKey.otpAttempts identifier
    let attempts := (cacheGet st.cache ak now).getD 0
    if maxAttempts ≤ attempts then
      (.rateLimited none, st)
    else
      match lookupUser st.users email none with
      | none => (.notFound, st)
      | some u =>
        let r := verify_otp st.otps u.id code now
        if r.1 then
          (.ok, { st with
                    otps := r.2,
                    users := st.users.map fun v =>
                      if v.id == u.id then { v with is_verified := true } else v,
                    cache := cacheDelete st.cache ak })
        else
          (.badCode (maxAttempts - (attempts + 1)),
           { st with otps := r.2,
                     cache := cacheSet st.cache ak (attempts + 1)
                                attemptTtlSeconds now })

/-- Phase 1 of `verify_otp` as the Python actually executes it: the
read-only queryset lookup `filter(user, code, is_used=False,
expires_at__gt=now).first()`, returning the position of the first matching
row without writing. -/
def find_live_idx (s : List OTPCode) (u : Nat) (c : String) (now : Nat) :
    Option Nat :=
  s.findIdx? fun o => o.matches u c now

/-- Phase 2 of `verify_otp`: `otp.is_used = True; otp.save()` — an
unconditional write-back of the row read in phase 1, with no guard on the
current state of the row. -/
def markUsedAt : List OTPCode → Nat → List OTPCode
  | [], _ => []
  | o :: rest, 0 => { o with is_used := true } :: rest
  | o :: rest, n + 1 => o :: markUsedAt rest n

/-- Two concurrent `verify_otp` calls for the same user and code under the
schedule read-A, read-B, write-A, write-B: both phase-1 reads run against
the same table before either phase-2 write. Returns (result of A, result of B,
final table). -/
def verify_otp_race (s : List OTPCode) (u : Nat) (c : String) (now : Nat) :
    Bool × Bool × List OTPCode :=
  let iA := find_live_idx s u c now
  let iB := find_live_idx s u c now
  let s1 := match iA with | some i => markUsedAt s i | none => s
  let s2 := match iB with | some i => markUsedAt s1 i | none => s1
  (iA.isSome, iB.isSome, s2)

/-! ## Helper lemmas -/

/-- Unfolding of the success branch of `create_otp`. -/
lemma create_otp_true (s : List OTPCode) (u : Nat) (c : String) (now : Nat) :
    create_otp s u c now true
      = (some (newOtp u c now), invalidate_live s u now ++ [newOtp u c now]) := rfl

/-- Unfolding of the delivery-failure branch of `create_otp`. -/
lemma create_otp_false (s : List OTPCode) (u : Nat) (c : String) (now : Nat) :
    create_otp s u c now false = (none, invalidate_live s u now) := rfl

/-- No row of a user is live, at the invalidation instant, after
`invalidate_live`. -/
lemma mem_invalidate_live_not_live (s : List OTPCode) (u : Nat) (now : Nat) :
    ∀ o ∈ invalidate_live s u now, (o.user == u && o.live now) = false := by
  intro o ho
  rcases List.mem_map.mp ho with ⟨a, _, rfl⟩
  by_cases h : (a.user == u && a.live now) = true
  · rw [if_pos h]
    simp [OTPCode.live]
  · rw [if_neg h]
    exact Bool.eq_false_iff.mpr h

lemma filter_invalidate_live_nil (s : List OTPCode) (u : Nat) (now : Nat) :
    (invalidate_live s u now).filter (fun o => o.user == u && o.live now) = [] := by
  apply List.filter_eq_nil_iff.mpr
  intro o ho
  simp [mem_invalidate_live_not_live s u now o ho]

/-- Every row that was live for the user appears, with `expires_at`
collapsed to `now`, after `invalidate_live`. -/
lemma invalidate_live_collapses (s : List OTPCode) (u : Nat) (now : Nat) :
    ∀ o ∈ s, o.user = u → o.live now = true →
      ({ o with expires_at := now } : OTPCode) ∈ invalidate_live s u now := by
  intro o ho hu hl
  have hcond : (o.user == u && o.live now) = true := by simp [hu, hl]
  have : ({ o with expires_at := now } : OTPCode)
      = (if o.user == u && o.live now then { o with expires_at := now } else o) := by
    simp [hcond]
  rw [this]
  exact List.mem_map_of_mem _ ho

/-- The fresh row is live at issuance time. -/
lemma newOtp_live (u : Nat) (c : String) (now : Nat) :
    (newOtp u c now).live now = true := by
  have h6 : now < now + otpValiditySeconds := by
    show now < now + 600
    omega
  simp [newOtp, OTPCode.live, h6]

/-- The fresh row satisfies the live-filter condition for its user. -/
lemma newOtp_filter_cond (u : Nat) (c : String) (now : Nat) :
    ((newOtp u c now).user == u && (newOtp u c now).live now) = true := by
  rw [newOtp_live]
  simp [newOtp]

/-! ## C1 -/

/-- C1: a `create_otp` call leaves at most one live code for the user — the
prior live rows get `expires_at` collapsed to `now`, the single fresh row
(expiring `now + 10` minutes) is the only live one on success, none is live
on delivery failure, and a second issuance at the same instant collapses the
first fresh row, leaving it non-live. -/
theorem create_otp_single_live (s : List OTPCode) (u : Nat) (c : String)
    (now : Nat) (deliverOk : Bool) :
    (((create_otp s u c now deliverOk).2.filter
        (fun o => o.user == u && o.live now)).length ≤ 1) ∧
    (∀ o ∈ s, o.user = u → o.live now = true →
      ({ o with expires_at := now } : OTPCode) ∈ (create_otp s u c now deliverOk).2) ∧
    (deliverOk = true →
      (create_otp s u c now deliverOk).1 = some (newOtp u c now) ∧
      (create_otp s u c now deliverOk).2.filter
          (fun o => o.user == u && o.live now) = [newOtp u c now]) ∧
    (deliverOk = false →
      (create_otp s u c now deliverOk).2.filter
          (fun o => o.user == u && o.live now) = []) ∧
    (deliverOk = true → ∀ c2 : String,
      ({ newOtp u c now with expires_at := now } : OTPCode)
          ∈ (create_otp (create_otp s u c now deliverOk).2 u c2 now true).2 ∧
      OTPCode.live { newOtp u c now with expires_at := now } now = false) := by
  cases deliverOk with
  | false =>
    rw [create_otp_false]
    refine ⟨?_, ?_, ?_, ?_, ?_⟩
    · rw [filter_invalidate_live_nil]; simp
    · exact fun o ho hu hl => invalidate_live_collapses s u now o ho hu hl
    · intro h; cases h
    · intro _; exact filter_invalidate_live_nil s u now
    · intro h; cases h
  | true =>
    rw [create_otp_true]
    have hfilter :
        ((invalidate_live s u now ++ [newOtp u c now]).filter
          (fun o => o.user == u && o.live now)) = [newOtp u c now] := by
      rw [List.filter_append, filter_invalidate_live_nil]
      simp [newOtp_filter_cond]
    refine ⟨?_, ?_, ?_, ?_, ?_⟩
    · rw [hfilter]; simp
    · intro o ho hu hl
      exact List.mem_append_left _ (invalidate_live_collapses s u now o ho hu hl)
    · exact fun _ => ⟨rfl, hfilter⟩
    · intro h; cases h
    · intro _ c2
      constructor
      · rw [create_otp_true]
        apply List.mem_append_left
        exact invalidate_live_collapses _ u now (newOtp u c now)
          (List.mem_append_right _ (by simp)) rfl (newOtp_live u c now)
      · simp [OTPCode.live, newOtp]

/-- C1 witness: two issuances for user 0 at instant 0, concretely. -/
theorem create_otp_single_live_check :
    ((create_otp [newOtp 0 "111111" 0] 0 "222222" 0 true).2.filter
        (fun o => o.user == 0 && o.live 0)).length ≤ 1 ∧
    ({ newOtp 0 "111111" 0 with expires_at := 0 } : OTPCode)
        ∈ (create_otp [newOtp 0 "111111" 0] 0 "222222" 0 true).2 ∧
    (create_otp [newOtp 0 "111111" 0] 0 "222222" 0 true).2.filter
        (fun o => o.user == 0 && o.live 0) = [newOtp 0 "222222" 0] := by
  have h := create_otp_single_live [newOtp 0 "111111" 0] 0 "222222" 0 true
  exact ⟨h.1,
    h.2.1 (newOtp 0 "111111" 0) (by simp) rfl (newOtp_live 0 "111111" 0),
    (h.2.2.1 rfl).2⟩

/-! ## C3 -/

/-- C3: when delivery fails on both channels (`send_otp` returned false),
`create_otp` signals failure, the table is exactly the invalidated prior
table — the just-created row has been deleted — and the fresh row is not
among the persisted rows. -/
theorem create_otp_delivery_failure_rollback (s : List OTPCode) (u : Nat)
    (c : String) (now : Nat) :
    create_otp s u c now false = (none, invalidate_live s u now) ∧
    newOtp u c now ∉ (create_otp s u c now false).2 := by
  constructor
  · rfl
  · intro hmem
    have h := mem_invalidate_live_not_live s u now (newOtp u c now) hmem
    rw [newOtp_filter_cond] at h
    cases h

/-- C3 witness: failed delivery for user 0 holding one live code. -/
theorem create_otp_delivery_failure_rollback_check :
    create_otp [newOtp 0 "111111" 0] 0 "222222" 5 false
      = (none, [{ newOtp 0 "111111" 0 with expires_at := 5 }]) ∧
    newOtp 0 "222222" 5 ∉ (create_otp [newOtp 0 "111111" 0] 0 "222222" 5 false).2 := by
  have h := create_otp_delivery_failure_rollback [newOtp 0 "111111" 0] 0 "222222" 5
  refine ⟨?_, h.2⟩
  rw [h.1]
  decide

/-! ## C10 -/

/-- C10: a `create_otp` that fails at the delivery step still leaves the
prior live codes of the user invalidated — the table equals the invalidated
table, each previously live row persists only with `expires_at` collapsed to
`now`, and no live code at all remains for the user, even though the caller
is told the operation failed (`none`). -/
theorem create_otp_failure_keeps_invalidation (s : List OTPCode) (u : Nat)
    (c : String) (now : Nat) :
    (create_otp s u c now false).1 = none ∧
    (create_otp s u c now false).2 = invalidate_live s u now ∧
    (∀ o ∈ s, o.user = u → o.live now = true →
      ({ o with expires_at := now } : OTPCode) ∈ (create_otp s u c now false).2) ∧
    ((create_otp s u c now false).2.filter
        (fun o => o.user == u && o.live now) = []) := by
  refine ⟨rfl, rfl, ?_, filter_invalidate_live_nil s u now⟩
  exact fun o ho hu hl => invalidate_live_collapses s u now o ho hu hl

/-- C10 witness: a user with one live code ends with zero live codes after a
failed re-request. -/
theorem create_otp_failure_keeps_invalidation_check :
    (create_otp [newOtp 0 "111111" 0] 0 "222222" 5 false).1 = none ∧
    ({ newOtp 0 "111111" 0 with expires_at := 5 } : OTPCode)
        ∈ (create_otp [newOtp 0 "111111" 0] 0 "222222" 5 false).2 ∧
    ((create_otp [newOtp 0 "111111" 0] 0 "222222" 5 false).2.filter
        (fun o => o.user == 0 && o.live 5) = []) := by
  have h := create_otp_failure_keeps_invalidation [newOtp 0 "111111" 0] 0 "222222" 5
  exact ⟨h.1,
    h.2.2.1 (newOtp 0 "111111" 0) (by simp) rfl (by decide),
    h.2.2.2⟩

/-! ## C2 -/

/-- The queryset condition spelled out on the record fields. -/
lemma matches_iff (o : OTPCode) (u : Nat) (c : String) (now : Nat) :
    o.matches u c now = true ↔
      o.user = u ∧ o.code = c ∧ o.is_used = false ∧ now < o.expires_at := by
  simp [OTPCode.matches, and_assoc]

/-- A row written back with `is_used = True` no longer matches the queryset. -/
lemma marked_not_matches (o : OTPCode) (u : Nat) (c : String) (now : Nat) :
    ({ o with is_used := true } : OTPCode).matches u c now = false := by
  simp [OTPCode.matches]

/-- `verify_otp` succeeds exactly when some row matches the queryset. -/
lemma verify_otp_fst_iff (s : List OTPCode) (u : Nat) (c : String) (now : Nat) :
    (verify_otp s u c now).1 = true ↔ ∃ o ∈ s, o.matches u c now = true := by
  induction s with
  | nil => simp [verify_otp]
  | cons o rest ih =>
    by_cases h : o.matches u c now = true
    · simp [verify_otp, h]
    · simp only [verify_otp, h]
      simp only [Bool.false_eq_true, if_false, List.mem_cons]
      constructor
      · intro hr
        rcases ih.mp hr with ⟨o', ho', hm⟩
        exact ⟨o', Or.inr ho', hm⟩
      · rintro ⟨o', ho' | ho', hm⟩
        · subst ho'; exact absurd hm h
        · exact ih.mpr ⟨o', ho', hm⟩

/-- A failed `verify_otp` leaves the table unchanged. -/
lemma verify_otp_snd_of_false (s : List OTPCode) (u : Nat) (c : String)
    (now : Nat) :
    (verify_otp s u c now).1 = false → (verify_otp s u c now).2 = s := by
  induction s with
  | nil => intro _; rfl
  | cons o rest ih =>
    by_cases h : o.matches u c now = true
    · simp [verify_otp, h]
    · simp only [verify_otp, h]
      simp only [Bool.false_eq_true, if_false]
      intro hr
      rw [ih hr]

/-- A successful `verify_otp` writes back exactly one matching row with
`is_used` set. -/
lemma verify_otp_marks_used (s : List OTPCode) (u : Nat) (c : String)
    (now : Nat) :
    (verify_otp s u c now).1 = true →
      ∃ o ∈ s, o.matches u c now = true ∧
        ({ o with is_used := true } : OTPCode) ∈ (verify_otp s u c now).2 := by
  induction s with
  | nil => intro h; cases h
  | cons o rest ih =>
    by_cases h : o.matches u c now = true
    · intro _
      refine ⟨o, List.mem_cons_self o rest, h, ?_⟩
      simp [verify_otp, h]
    · simp only [verify_otp, h]
      simp only [Bool.false_eq_true, if_false]
      intro hr
      rcases ih hr with ⟨o', ho', hm, hmem⟩
      exact ⟨o', List.mem_cons_of_mem o ho', hm, List.mem_cons_of_mem o hmem⟩

/-- `verify_otp` consumes exactly one matching row on success and none on
failure. -/
lemma verify_otp_filter_count (s : List OTPCode) (u : Nat) (c : String)
    (now : Nat) :
    ((verify_otp s u c now).2.filter (fun o => o.matches u c now)).length
        + ((verify_otp s u c now).1).toNat
      = (s.filter (fun o => o.matches u c now)).length := by
  induction s with
  | nil => rfl
  | cons o rest ih =>
    by_cases h : o.matches u c now = true
    · simp [verify_otp, h, marked_not_matches]
    · simp only [verify_otp, h]
      simp only [Bool.false_eq_true, if_false]
      simp only [List.filter_cons, h]
      simpa using ih

/-- C2: `verify_otp` succeeds iff the table holds a row with the same user,
the same code string, `is_used=false` and `expires_at > now`; a failure —
wrong, expired or already-used code alike — is the one value `false` with
the table unchanged; a success writes the matched row back with `is_used`
set; and, when at most one row matches, verifying the same code again
afterwards fails. -/
theorem verify_otp_correct (s : List OTPCode) (u : Nat) (c : String)
    (now : Nat) :
    ((verify_otp s u c now).1 = true ↔
      ∃ o ∈ s, o.user = u ∧ o.code = c ∧ o.is_used = false ∧
        now < o.expires_at) ∧
    ((verify_otp s u c now).1 = false → (verify_otp s u c now).2 = s) ∧
    ((verify_otp s u c now).1 = true →
      ∃ o ∈ s, o.matches u c now = true ∧
        ({ o with is_used := true } : OTPCode) ∈ (verify_otp s u c now).2) ∧
    ((s.filter (fun o => o.matches u c now)).length ≤ 1 →
      (verify_otp (verify_otp s u c now).2 u c now).1 = false) := by
  refine ⟨?_, verify_otp_snd_of_false s u c now, verify_otp_marks_used s u c now, ?_⟩
  · rw [verify_otp_fst_iff]
    constructor
    · rintro ⟨o, ho, hm⟩
      exact ⟨o, ho, (matches_iff o u c now).mp hm⟩
    · rintro ⟨o, ho, hm⟩
      exact ⟨o, ho, (matches_iff o u c now).mpr hm⟩
  · intro hle
    cases hfst : (verify_otp s u c now).1 with
    | false =>
      rw [verify_otp_snd_of_false s u c now hfst]
      exact hfst
    | true =>
      have hcount := verify_otp_filter_count s u c now
      rw [hfst] at hcount
      have hnil :
          ((verify_otp s u c now).2.filter (fun o => o.matches u c now)) = [] := by
        apply List.length_eq_zero.mp
        simp only [Bool.toNat_true] at hcount
        omega
      cases h2 : (verify_otp (verify_otp s u c now).2 u c now).1 with
      | false => rfl
      | true =>
        rcases (verify_otp_fst_iff _ u c now).mp h2 with ⟨o, ho, hm⟩
        have : o ∈ ((verify_otp s u c now).2.filter (fun o => o.matches u c now)) :=
          List.mem_filter.mpr ⟨ho, hm⟩
        rw [hnil] at this
        cases this

/-- C2 witness: a single live code verifies once, changes the row to used,
and fails on the second attempt. -/
theorem verify_otp_correct_check :
    (verify_otp [newOtp 0 "042917" 0] 0 "042917" 0).1 = true ∧
    (verify_otp [newOtp 0 "000000" 0] 0 "042917" 0).2 = [newOtp 0 "000000" 0] ∧
    (∃ o ∈ [newOtp 0 "042917" 0], o.matches 0 "042917" 0 = true ∧
      ({ o with is_used := true } : OTPCode)
        ∈ (verify_otp [newOtp 0 "042917" 0] 0 "042917" 0).2) ∧
    (verify_otp (verify_otp [newOtp 0 "042917" 0] 0 "042917" 0).2 0 "042917" 0).1
      = false := by
  have h := verify_otp_correct [newOtp 0 "042917" 0] 0 "042917" 0
  have h2 := verify_otp_correct [newOtp 0 "000000" 0] 0 "042917" 0
  refine ⟨?_, h2.2.1 (by decide), h.2.2.1 (by decide), h.2.2.2 (by decide)⟩
  exact h.1.mpr ⟨newOtp 0 "042917" 0, by simp, rfl, rfl, rfl, by decide⟩

/-! ## C6 -/

/-- C6: the lookup and the write of `verify_otp` are separate steps, not one
atomic conditional update. Run sequentially on a table holding one live
matching code, the first call succeeds and the second fails; but under the
interleaving in which both callers execute the read-only lookup before
either performs the unguarded write-back, both callers observe success —
contradicting the required exactly-one-success. -/
theorem verify_otp_race_double_success :
    (verify_otp [newOtp 0 "042917" 0] 0 "042917" 0).1 = true ∧
    (verify_otp (verify_otp [newOtp 0 "042917" 0] 0 "042917" 0).2 0 "042917" 0).1
      = false ∧
    (verify_otp_race [newOtp 0 "042917" 0] 0 "042917" 0).1 = true ∧
    (verify_otp_race [newOtp 0 "042917" 0] 0 "042917" 0).2.1 = true := by
  decide

/-! ## C7 -/

/-- C7: with the Twilio client constructible from settings, `send_otp`
always attempts the SMS channel first; it attempts the email fallback
exactly when the SMS attempt fails and the user has an email; and it
returns failure exactly when the SMS attempt fails and the email channel is
absent or its attempt errors — there is no third channel. -/
theorem send_otp_channel_order (clientOk smsOk : Bool) (email : Option String)
    (emailOk : Bool) (hclient : clientOk = true) :
    (send_otp clientOk smsOk email emailOk).attemptedSms = true ∧
    ((send_otp clientOk smsOk email emailOk).attemptedEmail = true ↔
      smsOk = false ∧ email.isSome = true) ∧
    ((send_otp clientOk smsOk email emailOk).ok = false ↔
      smsOk = false ∧ (email = none ∨ emailOk = false)) := by
  subst hclient
  cases smsOk <;> cases email <;> cases emailOk <;> simp [send_otp]

/-- C7 witness: SMS down, no email on file — both channels unusable, the
result is failure after one SMS attempt and no email attempt. -/
theorem send_otp_channel_order_check :
    (send_otp true false (none : Option String) false).attemptedSms = true ∧
    ((send_otp true false (none : Option String) false).attemptedEmail = true ↔
      false = false ∧ (none : Option String).isSome = true) ∧
    ((send_otp true false (none : Option String) false).ok = false ↔
      false = false ∧ ((none : Option String) = none ∨ false = false)) :=
  send_otp_channel_order true false none false rfl

/-! ## C8 -/

/-- C8 counterexample: the shape the claim asserts (either identifier plus
a six-digit code) accepts a phone-number-only input, but
`VerifyOTPSerializer` — whose `email` field is required and which declares
no `phone_number` field — rejects it. -/
theorem verify_serializer_rejects_phone_only :
    specVerifyShape none (some "+15551234567") "123456" = true ∧
    VerifyOTPSerializer_valid none (some "+15551234567") "123456" = false := by
  decide

/-- C8 amended: the Verify OTP input accepted by the serializer is
`{email, code}` — `email` is required, a submitted `phone_number` is
dropped, and `code` must be exactly 6 numeric characters; any violation is
rejected as a validation failure with the state untouched, before any OTP
processing. -/
theorem verify_serializer_shape (email phoneNumber : Option String)
    (code : String) (st : SysState) (now : Nat) :
    (VerifyOTPSerializer_valid email phoneNumber code = true ↔
      email.isSome = true ∧ code.length = 6 ∧
        code.data.all Char.isDigit = true) ∧
    (VerifyOTPSerializer_valid email phoneNumber code = false →
      VerifyOTPView_post st email phoneNumber code now
        = (.validationFailure, st)) := by
  constructor
  · simp [VerifyOTPSerializer_valid, isSixDigitCode, and_assoc]
  · intro h
    simp [VerifyOTPView_post, h]

/-- C8 witness: a five-character code is rejected by the view with no state
change; a six-digit code with an email passes validation. -/
theorem verify_serializer_shape_check :
    VerifyOTPView_post ⟨[], [], []⟩ (some "alice@example.com") none "04291" 0
      = (.validationFailure, ⟨[], [], []⟩) ∧
    VerifyOTPSerializer_valid (some "alice@example.com") none "042917" = true := by
  constructor
  · exact (verify_serializer_shape (some "alice@example.com") none "04291"
      ⟨[], [], []⟩ 0).2 (by decide)
  · exact (verify_serializer_shape (some "alice@example.com") none "042917"
      ⟨[], [], []⟩ 0).1.mpr ⟨rfl, by decide, by decide⟩

/-! ## C9 -/

/-- C9 counterexample: an input carrying both an email and a phone number is
accepted by `RequestOTPSerializer.validate`, though the claim requires
exactly one identifier and calls a two-identifier input a validation
failure. -/
theorem request_serializer_accepts_both :
    RequestOTPSerializer_valid (some "alice@example.com") (some "+15551234567")
      = true ∧
    specExactlyOneIdentifier (some "alice@example.com") (some "+15551234567")
      = false := by
  decide

/-- C9 amended: `RequestOTPSerializer.validate` requires at least one of
email and phone_number; an input with neither fails validation, and an
input with both is accepted (email then takes precedence downstream). -/
theorem request_serializer_at_least_one (email phoneNumber : Option String) :
    RequestOTPSerializer_valid email phoneNumber = true ↔
      (email.isSome = true ∨ phoneNumber.isSome = true) := by
  cases email <;> cases phoneNumber <;> simp [RequestOTPSerializer_valid]

/-- C9 witness: neither identifier is rejected, an email alone is accepted. -/
theorem request_serializer_at_least_one_check :
    RequestOTPSerializer_valid none none = false ∧
    RequestOTPSerializer_valid (some "alice@example.com") none = true := by
  constructor
  · have h := request_serializer_at_least_one none none
    cases hv : RequestOTPSerializer_valid none none with
    | false => rfl
    | true => rcases h.mp hv with h1 | h1 <;> cases h1
  · exact (request_serializer_at_least_one (some "alice@example.com") none).mpr
      (Or.inl rfl)

/-! ## Cache lemmas -/

lemma find?_filter_comm {α : Type} (l : List α) (p q : α → Bool)
    (h : ∀ e, p e = true → q e = true) :
    (l.filter q).find? p = l.find? p := by
  induction l with
  | nil => rfl
  | cons e t ih =>
    by_cases hq : q e = true
    · rw [List.filter_cons_of_pos hq]
      by_cases hp : p e = true
      · rw [List.find?_cons_of_pos _ hp, List.find?_cons_of_pos _ hp]
      · rw [List.find?_cons_of_neg _ hp, List.find?_cons_of_neg _ hp]
        exact ih
    · have hp : ¬ p e = true := fun hpe => hq (h e hpe)
      rw [List.filter_cons_of_neg hq, List.find?_cons_of_neg _ hp]
      exact ih

/-- Reading back the key just set: the value while the TTL lasts, nothing
after. -/
lemma cacheGet_cacheSet_same (c : Cache) (k : CacheKey) (v ttl now now' : Nat) :
    cacheGet (cacheSet c k v ttl now) k now'
      = if now' < now + ttl then some v else none := by
  unfold cacheGet cacheSet
  by_cases h : now' < now + ttl
  · rw [if_pos h, List.find?_cons_of_pos]
    · rfl
    · simp [h]
  · rw [if_neg h, List.find?_cons_of_neg]
    · have hfind : List.find? (fun e => e.key == k && decide (now' < e.expires_at))
          (c.filter (fun e => e.key != k)) = none := by
        apply List.find?_eq_none.mpr
        intro e he
        have hk := (List.mem_filter.mp he).2
        simp only [bne_iff_ne, ne_eq] at hk
        simp [hk]
      rw [hfind]
      rfl
    · simp [h]

/-- Setting one key leaves every other key unchanged. -/
lemma cacheGet_cacheSet_other (c : Cache) (k k' : CacheKey)
    (v ttl now now' : Nat) (h : k' ≠ k) :
    cacheGet (cacheSet c k v ttl now) k' now' = cacheGet c k' now' := by
  unfold cacheGet cacheSet
  rw [List.find?_cons_of_neg]
  · rw [find?_filter_comm]
    intro e he
    have hk : e.key = k' := by
      simp only [Bool.and_eq_true] at he
      exact beq_iff_eq.mp he.1
    simp [hk, bne_iff_ne, h]
  · have : (k == k') = false := beq_eq_false_iff_ne.mpr (Ne.symm h)
    simp [this]

/-! ## C4 -/

/-- The user table of the C4 scenario: Alice, registered and unverified. -/
def c4Users : List MUser :=
  [⟨0, some "alice@example.com", some "+15551234567", false⟩]

/-- C4 scenario start: no codes, no cooldown, and 3 recorded failed
attempts for Alice (entry unexpired until instant 1000). -/
def c4State : SysState :=
  ⟨c4Users, [], [⟨.otpAttempts "alice@example.com", 3, 1000⟩]⟩

/-- The state right after Alice successfully requests a fresh OTP. -/
def c4After : SysState :=
  (RequestOTPView_post c4State (some "alice@example.com") none "123456" true 0).2

/-- C4 counterexample: with 3 failed attempts on record, a new code is
issued successfully (200), yet the attempt counter still reads 3 afterwards
and the next verification request is still rejected 429 — issuing a new
code does not reset the counter, contrary to the claim. -/
theorem issuance_does_not_reset_attempts :
    (RequestOTPView_post c4State (some "alice@example.com") none "123456" true 0).1
      = .ok ∧
    cacheGet c4After.cache (.otpAttempts "alice@example.com") 0 = some 3 ∧
    (VerifyOTPView_post c4After (some "alice@example.com") none "123456" 0).1
      = .rateLimited none := by
  decide

/-- C4 amended: once the attempt counter of an identifier has reached 3, a
verification request is answered 429 with the state unchanged, whatever the
OTP table holds (the store is not consulted); a Request OTP call never
changes any attempt counter (issuance does not reset it); the refusal ends
only when the counter entry is gone — absent or past its 5-minute TTL — in
which case the verification request is not rate-limited. -/
theorem verify_attempt_cap (st : SysState) (email phoneNumber : Option String)
    (code : String) (now : Nat) :
    (VerifyOTPSerializer_valid email phoneNumber code = true →
      maxAttempts ≤
        (cacheGet st.cache (.otpAttempts (identifierOf email none)) now).getD 0 →
      VerifyOTPView_post st email phoneNumber code now = (.rateLimited none, st)) ∧
    (∀ (e p : Option String) (c2 : String) (dOk : Bool) (id : String) (now' : Nat),
      cacheGet ((RequestOTPView_post st e p c2 dOk now).2).cache
          (.otpAttempts id) now'
        = cacheGet st.cache (.otpAttempts id) now') ∧
    (cacheGet st.cache (.otpAttempts (identifierOf email none)) now = none →
      (VerifyOTPView_post st email phoneNumber code now).1 ≠ .rateLimited none) := by
  refine ⟨?_, ?_, ?_⟩
  · intro hv hcap
    simp [VerifyOTPView_post, hv, hcap]
  · intro e p c2 dOk id now'
    simp only [RequestOTPView_post]
    split
    · rfl
    · split
      · rfl
      · split
        · rfl
        · split
          · rfl
          · exact cacheGet_cacheSet_other st.cache _ _ 1 cooldownSeconds now now'
              (by simp)
  · intro hnone
    by_cases hv : VerifyOTPSerializer_valid email phoneNumber code = true
    · simp only [VerifyOTPView_post, hv, Bool.not_true, Bool.false_eq_true,
        if_false, hnone, Option.getD_none]
      have hlt : ¬ maxAttempts ≤ 0 := by
        show ¬ (3 ≤ 0)
        omega
      rw [if_neg hlt]
      split
      · simp
      · split <;> simp
    · have hv' : VerifyOTPSerializer_valid email phoneNumber code = false :=
        Bool.eq_false_iff.mpr hv
      simp [VerifyOTPView_post, hv']

/-- C4 amended, witness: a capped identifier is refused with any store; a
request call leaves the counter at 3; an identifier with no counter entry
is not refused. -/
theorem verify_attempt_cap_check :
    VerifyOTPView_post c4State (some "alice@example.com") none "123456" 0
      = (.rateLimited none, c4State) ∧
    cacheGet ((RequestOTPView_post c4State (some "alice@example.com") none
          "123456" true 0).2).cache (.otpAttempts "alice@example.com") 0
      = cacheGet c4State.cache (.otpAttempts "alice@example.com") 0 ∧
    (VerifyOTPView_post ⟨c4Users, [], []⟩ (some "alice@example.com") none
        "123456" 0).1 ≠ .rateLimited none := by
  refine ⟨?_, ?_, ?_⟩
  · exact (verify_attempt_cap c4State (some "alice@example.com") none
      "123456" 0).1 (by decide) (by decide)
  · exact (verify_attempt_cap c4State (some "alice@example.com") none
      "123456" 0).2.1 (some "alice@example.com") none "123456" true
      "alice@example.com" 0
  · exact (verify_attempt_cap ⟨c4Users, [], []⟩ (some "alice@example.com") none
      "123456" 0).2.2 rfl

/-! ## C5 -/

/-- C5: a Request OTP call finding a live cooldown entry for its identifier
is answered 429 with the "60 seconds" hint and the state untouched; on every
non-200 outcome the cache is unchanged, so a failed issuance or delivery
starts no cooldown; a 200 outcome installs the cooldown entry, readable for
exactly the next 60 seconds and gone afterwards; and with no live cooldown
entry the call is never answered with the cooldown rejection. -/
theorem request_otp_cooldown (st : SysState) (email phoneNumber : Option String)
    (code : String) (dOk : Bool) (now : Nat) :
    (RequestOTPSerializer_valid email phoneNumber = true →
      (cacheGet st.cache (.otpRequest (identifierOf email phoneNumber)) now).isSome
          = true →
      RequestOTPView_post st email phoneNumber code dOk now
        = (.rateLimited (some "60 seconds"), st)) ∧
    ((RequestOTPView_post st email phoneNumber code dOk now).1 = .ok ∨
      ((RequestOTPView_post st email phoneNumber code dOk now).2).cache
        = st.cache) ∧
    ((RequestOTPView_post st email phoneNumber code dOk now).1 = .ok →
      ∀ now' : Nat,
        cacheGet ((RequestOTPView_post st email phoneNumber code dOk now).2).cache
            (.otpRequest (identifierOf email phoneNumber)) now'
          = if now' < now + cooldownSeconds then some 1 else none) ∧
    (cacheGet st.cache (.otpRequest (identifierOf email phoneNumber)) now = none →
      (RequestOTPView_post st email phoneNumber code dOk now).1
        ≠ .rateLimited (some "60 seconds")) := by
  refine ⟨?_, ?_, ?_, ?_⟩
  · intro hv hcool
    simp [RequestOTPView_post, hv, hcool]
  · simp only [RequestOTPView_post]
    split
    · exact Or.inr rfl
    · split
      · exact Or.inr rfl
      · split
        · exact Or.inr rfl
        · split
          · exact Or.inr rfl
          · exact Or.inl rfl
  · simp only [RequestOTPView_post]
    split
    · intro h; simp at h
    · split
      · intro h; simp at h
      · split
        · intro h; simp at h
        · split
          · intro h; simp at h
          · intro _ now'
            exact cacheGet_cacheSet_same st.cache _ 1 cooldownSeconds now now'
  · intro hnone
    by_cases hv : RequestOTPSerializer_valid email phoneNumber = true
    · simp only [RequestOTPView_post, hv, Bool.not_true, Bool.false_eq_true,
        if_false, hnone, Option.isSome_none]
      split
      · simp
      · split <;> simp
    · have hv' : RequestOTPSerializer_valid email phoneNumber = false :=
        Bool.eq_false_iff.mpr hv
      simp [RequestOTPView_post, hv']

/-- C5 scenario A: a live cooldown entry for Alice, set to lapse at
instant 60. -/
def c5StateA : SysState :=
  ⟨c4Users, [], [⟨.otpRequest "alice@example.com", 1, 60⟩]⟩

/-- C5 scenario B: no cooldown entry at all. -/
def c5StateB : SysState := ⟨c4Users, [], []⟩

/-- C5 witness: with the cooldown live the request is refused unchanged;
from a clean state the request succeeds and its cooldown entry is readable
at 59 seconds but gone at 60. -/
theorem request_otp_cooldown_check :
    RequestOTPView_post c5StateA (some "alice@example.com") none "123456" true 0
      = (.rateLimited (some "60 seconds"), c5StateA) ∧
    cacheGet ((RequestOTPView_post c5StateB (some "alice@example.com") none
          "123456" true 0).2).cache (.otpRequest "alice@example.com") 59
      = some 1 ∧
    cacheGet ((RequestOTPView_post c5StateB (some "alice@example.com") none
          "123456" true 0).2).cache (.otpRequest "alice@example.com") 60
      = none := by
  have hA := (request_otp_cooldown c5StateA (some "alice@example.com") none
    "123456" true 0).1 (by decide) (by decide)
  have hB := (request_otp_cooldown c5StateB (some "alice@example.com") none
    "123456" true 0).2.2.1 (by decide)
  rw [show identifierOf (some "alice@example.com") (none : Option String)
      = "alice@example.com" from rfl] at hB
  refine ⟨hA, ?_, ?_⟩
  · rw [hB 59]; decide
  · rw [hB 60]; decide

end Manara
